import Mathlib

/-!
# Verification of the incremental revalidation cache

Shallow embedding of the core logic of the `ai_jira_ticket_validator`
repository:

* `src/lib/validation-history.ts` — `ValidationHistoryManager` with
  `getTicketHistory`, `detectChangedFields`, `createTicketSnapshot`,
  `updateTicketHistory`, `mergeValidationResults`, `clearHistory`;
* `src/unnamed/part_000` (the `/api/validate-tickets` route) —
  `validateSpecificFields` and `validateFullTicket`;
* `src/unnamed/part_002` (the page component) — the per-ticket body of
  `validateTickets`, the revalidation orchestrator.

JavaScript numbers are modelled exactly: per-field scores are integers
(`Int`), and the aggregate `Math.round(sum / length)` / `Math.floor(sum /
length)` expressions are modelled in exact integer arithmetic via floor
division (`Math.round(x) = ⌊x + 1/2⌋` per the ECMAScript spec, and for an
integer sum `s` and a positive length `n`, `⌊s/n + 1/2⌋ = (2s+n) fdiv 2n`
and `⌊s/n⌋ = s fdiv n`; the theorems for the aggregate claims re-derive the
rational-arithmetic reading from this encoding).  A division `0/0`
(empty field-result list) yields JavaScript `NaN`; `NaN` is modelled as
`none` of an `Option Int`, and `NaN >= 7` is `false`.

The external text-generation collaborator is modelled as an oracle
function into a three-way outcome.  In the source the `await generateText`
sits *outside* the `try` that wraps only `JSON.parse`, both per field in
`validateSpecificFields` and in `validateFullTicket`: a failed call
therefore throws past the local `catch`, rejects the surrounding
`Promise.all`, and the route's outer `catch` answers 500 — modelled by
`Option`-valued functions returning `none`.  Only a call that succeeds
with unparsable text reaches the `catch` branch and degrades to the
sentinel result.  The browser `localStorage` backing store is modelled by
passing the stored history list explicitly.
-/

namespace JiraValidation

/-- `TicketSnapshot` from `src/lib/validation-history.ts`.  The optional
`assignee?: string` field becomes `Option String`. -/
structure TicketSnapshot where
  key : String
  summary : String
  description : String
  priority : String
  status : String
  assignee : Option String
  reporter : String
  created : String
  deriving DecidableEq, Repr

/-- `FieldValidationResult` from `src/lib/validation-history.ts`. -/
structure FieldValidationResult where
  field : String
  isValid : Bool
  score : Int
  issues : List String
  suggestions : List String
  lastValidated : String
  deriving DecidableEq, Repr

/-- `ValidationHistoryEntry` from `src/lib/validation-history.ts`.
`overallScore` is an `Option Int` because the JavaScript value is `NaN`
when `fieldResults` is empty (`Math.round(0 / 0)`). -/
structure ValidationHistoryEntry where
  ticketKey : String
  snapshot : TicketSnapshot
  fieldResults : List FieldValidationResult
  overallScore : Option Int
  isValid : Bool
  timestamp : String
  deriving DecidableEq, Repr

/-- `ValidationHistoryManager.getTicketHistory`:
`history.find((entry) => entry.ticketKey === ticketKey) || null`.
The stored history (`getHistory()`) is passed explicitly. -/
def getTicketHistory (history : List ValidationHistoryEntry) (ticketKey : String) :
    Option ValidationHistoryEntry :=
  history.find? (fun entry => entry.ticketKey == ticketKey)

/-- `ValidationHistoryManager.detectChangedFields`: compares the six
fields `summary`, `description`, `priority`, `status`, `assignee`,
`reporter` of the two snapshots with `!==` and pushes the corresponding
field name; `key` and `created` are not compared. -/
def detectChangedFields (current previous : TicketSnapshot) : List String :=
  (if current.summary ≠ previous.summary then ["summary"] else []) ++
  (if current.description ≠ previous.description then ["description"] else []) ++
  (if current.priority ≠ previous.priority then ["priority"] else []) ++
  (if current.status ≠ previous.status then ["status"] else []) ++
  (if current.assignee ≠ previous.assignee then ["assignee"] else []) ++
  (if current.reporter ≠ previous.reporter then ["reporter"] else []) ++
  []

/-- `ValidationHistoryManager.createTicketSnapshot`: rebuilds the record
from the ticket's snapshot-relevant fields (the extra `labels`/`components`
fields of a fetched ticket play no part in the core logic, so tickets are
identified with their snapshots here). -/
def createTicketSnapshot (ticket : TicketSnapshot) : TicketSnapshot :=
  { key := ticket.key
    summary := ticket.summary
    description := ticket.description
    priority := ticket.priority
    status := ticket.status
    assignee := ticket.assignee
    reporter := ticket.reporter
    created := ticket.created }

/-- Insertion-order deduplication, the semantics of
`new Set([...previousResults.map((r) => r.field), ...newResults.map((r) => r.field)])`
iterated with `forEach`: a JavaScript `Set` keeps the first occurrence of
each element, in insertion order. -/
def dedupFirst : List String → List String
  | [] => []
  | x :: xs => x :: dedupFirst (xs.filter (fun y => y != x))
termination_by l => l.length
decreasing_by
  simpa using Nat.lt_succ_of_le (List.length_filter_le _ _)

/-- Lookup of the result for a field name:
`results.find((r) => r.field === fieldName)`. -/
def findField (results : List FieldValidationResult) (fieldName : String) :
    Option FieldValidationResult :=
  results.find? (fun r => r.field == fieldName)

/-- `ValidationHistoryManager.mergeValidationResults`: iterate the
insertion-ordered set of all field names appearing in either input; for a
changed field push the entry found in `newResults` (if any), otherwise
push the entry found in `previousResults` (if any).  The push-if-found
loop over `allFields` is a `filterMap`. -/
def mergeValidationResults (previousResults newResults : List FieldValidationResult)
    (changedFields : List String) : List FieldValidationResult :=
  let allFields := dedupFirst
    (previousResults.map (fun r => r.field) ++ newResults.map (fun r => r.field))
  allFields.filterMap (fun fieldName =>
    if fieldName ∈ changedFields then findField newResults fieldName
    else findField previousResults fieldName)

/-- The summation loop
`fieldResults.reduce((sum, field) => sum + field.score, 0)` shared by
`updateTicketHistory` (`src/lib/validation-history.ts`),
`validateSpecificFields` (`src/unnamed/part_000`) and the orchestrator
(`src/unnamed/part_002`). -/
def sumScores (fieldResults : List FieldValidationResult) : Int :=
  fieldResults.foldl (fun sum field => sum + field.score) 0

/-- `Math.round(sum / length)`, the aggregate-score expression written
identically in `updateTicketHistory` (`src/lib/validation-history.ts`,
line 79) and `validateSpecificFields` (`src/unnamed/part_000`, line 113),
in exact integer arithmetic: `Math.round(x) = ⌊x + 1/2⌋` per the
ECMAScript spec, and for an integer sum `s` and length `n > 0`,
`⌊s/n + 1/2⌋ = (2s+n) fdiv 2n` (the theorem for C6 proves this encoding
equal to `round` of the rational mean).  For an empty list JavaScript
computes `Math.round(0 / 0) = NaN`, modelled as `none`. -/
def overallScoreOf (fieldResults : List FieldValidationResult) : Option Int :=
  if fieldResults.length = 0 then none
  else some ((2 * sumScores fieldResults + (fieldResults.length : Int)).fdiv
    (2 * (fieldResults.length : Int)))

/-- `Math.floor(sum / length)`, the aggregate-score expression of the
orchestrator in `src/unnamed/part_002` (`Math.floor(...reduce(...) /
length)`); `⌊s/n⌋ = s fdiv n` for `n > 0`, and `none` models the `NaN`
produced for an empty list. -/
def floorScoreOf (fieldResults : List FieldValidationResult) : Option Int :=
  if fieldResults.length = 0 then none
  else some ((sumScores fieldResults).fdiv (fieldResults.length : Int))

/-- The comparison `overallScore >= 7` on a JavaScript number that may be
`NaN`: `NaN >= 7` is `false`. -/
def scoreAtLeast7 : Option Int → Bool
  | some s => decide (7 ≤ s)
  | none => false

/-- `fieldResults.every((field) => field.isValid) && overallScore >= 7`,
written identically in `updateTicketHistory`
(`src/lib/validation-history.ts`, line 80) and `validateSpecificFields`
(`src/unnamed/part_000`, line 114). -/
def isValidOf (fieldResults : List FieldValidationResult) : Bool :=
  fieldResults.all (fun field => field.isValid) &&
    scoreAtLeast7 (overallScoreOf fieldResults)

/-- The `newEntry` object built inside
`ValidationHistoryManager.updateTicketHistory`; `timestamp` is the
`new Date().toISOString()` value passed explicitly as `now`. -/
def mkEntry (ticketKey : String) (snapshot : TicketSnapshot)
    (fieldResults : List FieldValidationResult) (now : String) :
    ValidationHistoryEntry :=
  { ticketKey := ticketKey
    snapshot := snapshot
    fieldResults := fieldResults
    overallScore := overallScoreOf fieldResults
    isValid := isValidOf fieldResults
    timestamp := now }

/-- `ValidationHistoryManager.updateTicketHistory`:
`findIndex` on the ticket key, then in-place replacement
(`history[existingIndex] = newEntry`) or `push`. -/
def updateTicketHistory (history : List ValidationHistoryEntry)
    (ticketKey : String) (snapshot : TicketSnapshot)
    (fieldResults : List FieldValidationResult) (now : String) :
    List ValidationHistoryEntry :=
  let newEntry := mkEntry ticketKey snapshot fieldResults now
  match history.findIdx? (fun entry => entry.ticketKey == ticketKey) with
  | some existingIndex => history.set existingIndex newEntry
  | none => history ++ [newEntry]

/-- `ValidationHistoryManager.clearHistory`: `localStorage.removeItem`
leaves `getHistory()` returning the empty list. -/
def clearHistory : List ValidationHistoryEntry := []

/-- The JSON object a successful `generateText` + `JSON.parse` yields for
one field in `validateSpecificFields` (`src/unnamed/part_000`); `issues`
and `suggestions` may be absent (`analysis.issues || []`). -/
structure Analysis where
  isValid : Bool
  score : Int
  issues : Option (List String)
  suggestions : Option (List String)
  deriving DecidableEq, Repr

/-- The degraded result built in the `catch (parseError)` branch of
`validateSpecificFields`: score 0, a diagnostic issue, a retry
suggestion. -/
def sentinelResult (fieldName now : String) : FieldValidationResult :=
  { field := fieldName
    isValid := false
    score := 0
    issues := ["Failed to analyze " ++ fieldName ++ " field"]
    suggestions := ["Re-validate " ++ fieldName ++ " field"]
    lastValidated := now }

/-- Outcome of one per-field collaborator interaction in
`validateSpecificFields` (`src/unnamed/part_000`): the `await
generateText` (lines 60-88) sits *outside* the `try` that wraps only
`JSON.parse` (lines 90-109), so a failed call throws out of the
per-field callback, while successfully returned text that fails to parse
is caught locally. -/
inductive GenOutcome where
  | failed
  | unparsable
  | parsed (analysis : Analysis)
  deriving DecidableEq, Repr

/-- The per-field body of `validateSpecificFields`: one `generateText`
call followed by one `JSON.parse`.  A failed call produces no result at
all (`none`): the exception escapes the per-field `try`, which wraps
only the parse.  Unparsable output is caught and degrades to the
sentinel; parsed output builds the field result. -/
def fieldResultOf (oracle : String → GenOutcome) (now fieldName : String) :
    Option FieldValidationResult :=
  match oracle fieldName with
  | GenOutcome.failed => none
  | GenOutcome.unparsable => some (sentinelResult fieldName now)
  | GenOutcome.parsed analysis =>
    some { field := fieldName
           isValid := analysis.isValid
           score := analysis.score
           issues := analysis.issues.getD []
           suggestions := analysis.suggestions.getD []
           lastValidated := now }

/-- `await Promise.all(fieldsToValidate.map(...))` over the per-field
body: the list of all results, or `none` as soon as any single call
failed — one rejected promise rejects the whole `Promise.all`. -/
def validatedFieldResults (oracle : String → GenOutcome) (now : String) :
    List String → Option (List FieldValidationResult)
  | [] => some []
  | fieldName :: rest =>
    match fieldResultOf oracle now fieldName,
        validatedFieldResults oracle now rest with
    | some r, some rs => some (r :: rs)
    | _, _ => none

/-- The object returned by `validateSpecificFields` in
`src/unnamed/part_000` (the `ticket` echo field is dropped: it is the
unmodified input). -/
structure FieldSpecificResult where
  isValid : Bool
  score : Option Int
  issues : List String
  suggestions : List String
  fieldResults : List FieldValidationResult
  validationType : String
  deriving DecidableEq, Repr

/-- `validateSpecificFields` from `src/unnamed/part_000`: per-field
results, then `overallScore`/`isValid` aggregates and flattened
issue/suggestion lists.  `none` when any field's `generateText` call
failed: the rejection propagates to the POST handler's `catch` and the
request answers 500, so no per-field result survives. -/
def validateSpecificFields (oracle : String → GenOutcome) (now : String)
    (fieldsToValidate : List String) : Option FieldSpecificResult :=
  match validatedFieldResults oracle now fieldsToValidate with
  | none => none
  | some fieldResults =>
    some { isValid := isValidOf fieldResults
           score := overallScoreOf fieldResults
           issues := fieldResults.flatMap (fun f => f.issues)
           suggestions := fieldResults.flatMap (fun f => f.suggestions)
           fieldResults := fieldResults
           validationType := "field-specific" }

/-- The JSON object a successful full-ticket `generateText` +
`JSON.parse` yields in `validateFullTicket` (`src/unnamed/part_000`);
every list may be absent (`analysis.fieldResults || []`). -/
structure FullAnalysis where
  isValid : Bool
  score : Int
  issues : Option (List String)
  suggestions : Option (List String)
  fieldResults : Option (List FieldValidationResult)
  deriving DecidableEq, Repr

/-- The object returned by `validateFullTicket` (the `ticket` echo field
is dropped). -/
structure FullTicketResult where
  isValid : Bool
  score : Int
  issues : List String
  suggestions : List String
  fieldResults : List FieldValidationResult
  validationType : String
  deriving DecidableEq, Repr

/-- Outcome of the single full-ticket collaborator interaction in
`validateFullTicket`: as in the per-field case, the `await generateText`
is outside the `try` (which wraps only `JSON.parse`), so a failed call
aborts the request while unparsable output is caught. -/
inductive FullOutcome where
  | failed
  | unparsable
  | parsed (analysis : FullAnalysis)
  deriving DecidableEq, Repr

/-- `validateFullTicket` from `src/unnamed/part_000`: one `generateText`
call for the whole ticket.  A failed call propagates (`none`; the POST
handler answers 500); the `catch` branch degrades unparsable output to
score 0 and an empty field-result list. -/
def validateFullTicket (fullOracle : FullOutcome) : Option FullTicketResult :=
  match fullOracle with
  | FullOutcome.failed => none
  | FullOutcome.unparsable =>
    some { isValid := false
           score := 0
           issues := ["Failed to analyze ticket - please try again"]
           suggestions := ["Re-run validation to get proper analysis"]
           fieldResults := []
           validationType := "full" }
  | FullOutcome.parsed analysis =>
    some { isValid := analysis.isValid
           score := analysis.score
           issues := analysis.issues.getD []
           suggestions := analysis.suggestions.getD []
           fieldResults := analysis.fieldResults.getD []
           validationType := "full" }

/-- The per-ticket result object built by `validateTickets` in
`src/unnamed/part_002` (the `ticket` echo field is dropped; the full
branch additionally spreads the API's `isValid` flag, which no claim
concerns). -/
structure OrchestratorResult where
  score : Option Int
  issues : List String
  suggestions : List String
  fieldResults : List FieldValidationResult
  validationType : String
  changedFields : List String
  cachedFields : List String
  deriving DecidableEq, Repr

/-- The per-ticket body of `validateTickets` in `src/unnamed/part_002`
(the orchestrator; `tickets.map` applies it to each selected ticket).
Returns `some` of the result object, the history after the step (the
`localStorage` contents), and the number of field-validator
(`generateText`) invocations the step performed: one per changed field in
the partial branch (`validateSpecificFields` maps the changed fields over
`generateText`), one in the full branch (`validateFullTicket`), zero in
the cached branch, which neither calls the API nor writes history.
Returns `none` when the API route answered 500 because a collaborator
call failed: the orchestrator's `if (!response.ok) throw ...` then
escapes to the surrounding `catch`, which shows an error banner and
produces no results. -/
def validateOneTicket (oracle : String → GenOutcome)
    (fullOracle : FullOutcome) (now : String)
    (history : List ValidationHistoryEntry) (ticket : TicketSnapshot) :
    Option (OrchestratorResult × List ValidationHistoryEntry × Nat) :=
  let currentSnapshot := createTicketSnapshot ticket
  match getTicketHistory history ticket.key with
  | some previousHistory =>
    let changedFields := detectChangedFields currentSnapshot previousHistory.snapshot
    if changedFields.length = 0 then
      some ({ score := floorScoreOf previousHistory.fieldResults
              issues := previousHistory.fieldResults.flatMap (fun f => f.issues)
              suggestions := previousHistory.fieldResults.flatMap
                (fun f => f.suggestions)
              fieldResults := previousHistory.fieldResults
              validationType := "cached"
              changedFields := []
              cachedFields := previousHistory.fieldResults.map (fun f => f.field) },
            history, 0)
    else
      match validateSpecificFields oracle now changedFields with
      | none => none
      | some newResult =>
        let mergedFieldResults := mergeValidationResults
          previousHistory.fieldResults newResult.fieldResults changedFields
        let history' := updateTicketHistory history ticket.key currentSnapshot
          mergedFieldResults now
        some ({ score := floorScoreOf mergedFieldResults
                issues := mergedFieldResults.flatMap (fun f => f.issues)
                suggestions := mergedFieldResults.flatMap (fun f => f.suggestions)
                fieldResults := mergedFieldResults
                validationType := "partial"
                changedFields := changedFields
                cachedFields := (previousHistory.fieldResults.filter
                  (fun f => decide (f.field ∉ changedFields))).map
                  (fun f => f.field) },
              history', changedFields.length)
  | none =>
    match validateFullTicket fullOracle with
    | none => none
    | some result =>
      let history' := updateTicketHistory history ticket.key currentSnapshot
        result.fieldResults now
      some ({ score := floorScoreOf result.fieldResults
              issues := result.issues
              suggestions := result.suggestions
              fieldResults := result.fieldResults
              validationType := "full"
              changedFields := ["summary", "description", "priority", "status",
                "assignee"]
              cachedFields := [] },
            history', 1)

/-- Recursive reformulation of `updateTicketHistory` (first match is
replaced in place, otherwise the new entry is appended); proved equal to
the `findIndex`-based translation and used only inside proofs. -/
def upsertEntry (newEntry : ValidationHistoryEntry)
    (p : ValidationHistoryEntry → Bool) :
    List ValidationHistoryEntry → List ValidationHistoryEntry
  | [] => [newEntry]
  | entry :: rest =>
    if p entry then newEntry :: rest else entry :: upsertEntry newEntry p rest

/-- Concrete fixture for the C9 witness: the stored snapshot of `T-1`. -/
def c9StoredSnapshot : TicketSnapshot :=
  { key := "T-1", summary := "s", description := "d", priority := "High",
    status := "Open", assignee := none, reporter := "r", created := "c" }

/-- Concrete fixture for the C9 witness: the stored snapshot of `T-2`. -/
def c9OtherSnapshot : TicketSnapshot :=
  { key := "T-2", summary := "s2", description := "d2", priority := "Low",
    status := "Done", assignee := some "u", reporter := "r2", created := "c2" }

/-- Concrete fixture for the C9 witness: the stored entry for `T-1`. -/
def c9StoredEntry : ValidationHistoryEntry :=
  { ticketKey := "T-1", snapshot := c9StoredSnapshot, fieldResults := [],
    overallScore := none, isValid := false, timestamp := "t0" }

/-- Concrete fixture for the C9 witness: the stored entry for `T-2`. -/
def c9OtherEntry : ValidationHistoryEntry :=
  { ticketKey := "T-2", snapshot := c9OtherSnapshot, fieldResults := [],
    overallScore := none, isValid := false, timestamp := "t0" }

/-- Concrete fixture for the C9 witness: the updated snapshot of `T-1`. -/
def c9NewSnapshot : TicketSnapshot :=
  { key := "T-1", summary := "s2", description := "d", priority := "High",
    status := "Open", assignee := none, reporter := "r", created := "c" }

/-- Concrete fixture for the C9 witness: the merged field results written
for `T-1`. -/
def c9NewResults : List FieldValidationResult :=
  [{ field := "summary", isValid := true, score := 9, issues := [],
     suggestions := [], lastValidated := "t1" }]

/-- Concrete fixture for the C1 witness: the snapshot of ticket `T-9`,
also the snapshot stored in its cache entry. -/
def c1Snapshot : TicketSnapshot :=
  { key := "T-9", summary := "s", description := "d", priority := "High",
    status := "Open", assignee := some "u", reporter := "r", created := "c" }

/-- Concrete fixture for the C1 witness: the cached field results of
`T-9`. -/
def c1FieldResults : List FieldValidationResult :=
  [{ field := "summary", isValid := true, score := 8, issues := [],
     suggestions := [], lastValidated := "t0" }]

/-- Concrete fixture for the C1 witness: the cache entry of `T-9`. -/
def c1Entry : ValidationHistoryEntry :=
  { ticketKey := "T-9", snapshot := c1Snapshot, fieldResults := c1FieldResults,
    overallScore := some 8, isValid := true, timestamp := "t0" }

theorem mem_dedupFirst (a : String) : ∀ (l : List String), a ∈ dedupFirst l ↔ a ∈ l
  | [] => by rw [dedupFirst]
  | x :: xs => by
    rw [dedupFirst]
    have ih := mem_dedupFirst a (xs.filter (fun y => y != x))
    simp only [List.mem_cons, ih, List.mem_filter, bne_iff_ne, ne_eq]
    by_cases hax : a = x <;> simp [hax]
termination_by l => l.length
decreasing_by
  simpa using Nat.lt_succ_of_le (List.length_filter_le _ _)

/-- **C4.** `detectChangedFields` returns the empty list iff the six
compared fields (`summary`, `description`, `priority`, `status`,
`assignee`, `reporter`) are pairwise equal; moreover `key` and `created`
are never compared (overriding them on both arguments leaves the result
unchanged), and `detectChangedFields s s = []` for every snapshot `s`. -/
theorem c4_detect_changed_empty_iff (current previous : TicketSnapshot)
    (k k' cr cr' : String) :
    (detectChangedFields current previous = [] ↔
      (current.summary = previous.summary ∧
       current.description = previous.description ∧
       current.priority = previous.priority ∧
       current.status = previous.status ∧
       current.assignee = previous.assignee ∧
       current.reporter = previous.reporter)) ∧
    detectChangedFields current current = [] ∧
    detectChangedFields { current with key := k, created := cr }
      { previous with key := k', created := cr' } =
      detectChangedFields current previous := by
  refine ⟨?_, ?_, ?_⟩
  · simp only [detectChangedFields, List.append_eq_nil, List.append_nil,
      ite_eq_right_iff, reduceCtorEq, imp_false, not_not]
    tauto
  · simp [detectChangedFields]
  · simp [detectChangedFields]

/-- **C5.** If the two snapshots differ in exactly one of the six compared
fields and agree on the other five, `detectChangedFields` returns the
singleton list containing exactly that field's name. -/
theorem c5_detect_single_change_singleton (c p : TicketSnapshot) :
    (c.summary ≠ p.summary → c.description = p.description →
     c.priority = p.priority → c.status = p.status →
     c.assignee = p.assignee → c.reporter = p.reporter →
     detectChangedFields c p = ["summary"]) ∧
    (c.summary = p.summary → c.description ≠ p.description →
     c.priority = p.priority → c.status = p.status →
     c.assignee = p.assignee → c.reporter = p.reporter →
     detectChangedFields c p = ["description"]) ∧
    (c.summary = p.summary → c.description = p.description →
     c.priority ≠ p.priority → c.status = p.status →
     c.assignee = p.assignee → c.reporter = p.reporter →
     detectChangedFields c p = ["priority"]) ∧
    (c.summary = p.summary → c.description = p.description →
     c.priority = p.priority → c.status ≠ p.status →
     c.assignee = p.assignee → c.reporter = p.reporter →
     detectChangedFields c p = ["status"]) ∧
    (c.summary = p.summary → c.description = p.description →
     c.priority = p.priority → c.status = p.status →
     c.assignee ≠ p.assignee → c.reporter = p.reporter →
     detectChangedFields c p = ["assignee"]) ∧
    (c.summary = p.summary → c.description = p.description →
     c.priority = p.priority → c.status = p.status →
     c.assignee = p.assignee → c.reporter ≠ p.reporter →
     detectChangedFields c p = ["reporter"]) := by
  refine ⟨?_, ?_, ?_, ?_, ?_, ?_⟩ <;>
    · intro h1 h2 h3 h4 h5 h6
      simp [detectChangedFields, h1, h2, h3, h4, h5, h6]

/-- Witness for C5: concrete snapshot pairs differing in exactly one
compared field, one per branch of the theorem. -/
theorem c5_detect_single_change_singleton_witness :
    (detectChangedFields
      { key := "T-1", summary := "a", description := "d", priority := "High",
        status := "Open", assignee := some "u", reporter := "r", created := "c" }
      { key := "T-1", summary := "b", description := "d", priority := "High",
        status := "Open", assignee := some "u", reporter := "r", created := "c" }
      = ["summary"]) ∧
    (detectChangedFields
      { key := "T-1", summary := "a", description := "d", priority := "High",
        status := "Open", assignee := some "u", reporter := "r", created := "c" }
      { key := "T-1", summary := "a", description := "e", priority := "High",
        status := "Open", assignee := some "u", reporter := "r", created := "c" }
      = ["description"]) ∧
    (detectChangedFields
      { key := "T-1", summary := "a", description := "d", priority := "High",
        status := "Open", assignee := some "u", reporter := "r", created := "c" }
      { key := "T-1", summary := "a", description := "d", priority := "Low",
        status := "Open", assignee := some "u", reporter := "r", created := "c" }
      = ["priority"]) ∧
    (detectChangedFields
      { key := "T-1", summary := "a", description := "d", priority := "High",
        status := "Open", assignee := some "u", reporter := "r", created := "c" }
      { key := "T-1", summary := "a", description := "d", priority := "High",
        status := "Done", assignee := some "u", reporter := "r", created := "c" }
      = ["status"]) ∧
    (detectChangedFields
      { key := "T-1", summary := "a", description := "d", priority := "High",
        status := "Open", assignee := some "u", reporter := "r", created := "c" }
      { key := "T-1", summary := "a", description := "d", priority := "High",
        status := "Open", assignee := none, reporter := "r", created := "c" }
      = ["assignee"]) ∧
    (detectChangedFields
      { key := "T-1", summary := "a", description := "d", priority := "High",
        status := "Open", assignee := some "u", reporter := "r", created := "c" }
      { key := "T-1", summary := "a", description := "d", priority := "High",
        status := "Open", assignee := some "u", reporter := "s", created := "c" }
      = ["reporter"]) := by
  refine ⟨?_, ?_, ?_, ?_, ?_, ?_⟩
  · exact (c5_detect_single_change_singleton _ _).1
      (by decide) (by decide) (by decide) (by decide) (by decide) (by decide)
  · exact (c5_detect_single_change_singleton _ _).2.1
      (by decide) (by decide) (by decide) (by decide) (by decide) (by decide)
  · exact (c5_detect_single_change_singleton _ _).2.2.1
      (by decide) (by decide) (by decide) (by decide) (by decide) (by decide)
  · exact (c5_detect_single_change_singleton _ _).2.2.2.1
      (by decide) (by decide) (by decide) (by decide) (by decide) (by decide)
  · exact (c5_detect_single_change_singleton _ _).2.2.2.2.1
      (by decide) (by decide) (by decide) (by decide) (by decide) (by decide)
  · exact (c5_detect_single_change_singleton _ _).2.2.2.2.2
      (by decide) (by decide) (by decide) (by decide) (by decide) (by decide)

/-- The conditional push of a single field name is a sublist of the
corresponding singleton. -/
theorem ite_singleton_sublist (cond : Prop) [Decidable cond] (x : String) :
    (if cond then [x] else []).Sublist [x] := by
  split
  · exact List.Sublist.refl _
  · exact List.nil_sublist _

/-- **C10.** The changed-field list is always a subsequence of the fixed
sequence `[summary, description, priority, status, assignee, reporter]`
(in that order), hence duplicate-free and deterministic. -/
theorem c10_detect_changed_sublist_nodup (current previous : TicketSnapshot) :
    (detectChangedFields current previous).Sublist
      ["summary", "description", "priority", "status", "assignee", "reporter"] ∧
    (detectChangedFields current previous).Nodup := by
  have hsub : (detectChangedFields current previous).Sublist
      ["summary", "description", "priority", "status", "assignee", "reporter"] := by
    have : (["summary", "description", "priority", "status", "assignee",
        "reporter"] : List String) =
        ["summary"] ++ ["description"] ++ ["priority"] ++ ["status"] ++
          ["assignee"] ++ ["reporter"] ++ [] := rfl
    rw [detectChangedFields, this]
    exact ((((((ite_singleton_sublist _ _).append
      (ite_singleton_sublist _ _)).append
      (ite_singleton_sublist _ _)).append
      (ite_singleton_sublist _ _)).append
      (ite_singleton_sublist _ _)).append
      (ite_singleton_sublist _ _)).append (List.Sublist.refl [])
  exact ⟨hsub, hsub.nodup (by decide)⟩

theorem findField_eq_none_of_not_mem (results : List FieldValidationResult)
    (n : String) (h : n ∉ results.map (fun r => r.field)) :
    findField results n = none := by
  rw [findField, List.find?_eq_none]
  intro r hr
  simp only [beq_iff_eq]
  intro hrn
  exact h (List.mem_map.mpr ⟨r, hr, hrn⟩)

theorem find?_filterMap_pick (pick : String → Option FieldValidationResult)
    (hp : ∀ m r, pick m = some r → r.field = m) (n : String) :
    ∀ (l : List String),
      (l.filterMap pick).find? (fun r => r.field == n) =
        if n ∈ l then pick n else none
  | [] => by simp
  | m :: l => by
    rw [List.filterMap_cons]
    cases hm : pick m with
    | none =>
      rw [find?_filterMap_pick pick hp n l]
      by_cases hnm : n = m
      · subst hnm
        by_cases hnl : n ∈ l <;> simp [hnl, hm]
      · simp [hnm]
    | some r =>
      have hrm : r.field = m := hp m r hm
      by_cases hnm : n = m
      · subst hnm
        simp [List.find?_cons, hrm, hm]
      · have hfalse : (r.field == n) = false := by
          rw [hrm]
          exact beq_eq_false_iff_ne.mpr (Ne.symm hnm)
        rw [List.find?_cons, hfalse, find?_filterMap_pick pick hp n l]
        simp [hnm]

/-- Characterization of lookups in the merged list: for a changed field
name the merged lookup agrees with the fresh list's lookup, otherwise with
the previous list's lookup. -/
theorem findField_merge (previousResults newResults : List FieldValidationResult)
    (changedFields : List String) (n : String) :
    findField (mergeValidationResults previousResults newResults changedFields) n =
      if n ∈ changedFields then findField newResults n
      else findField previousResults n := by
  rw [findField, mergeValidationResults]
  have hp : ∀ m r,
      (if m ∈ changedFields then findField newResults m
        else findField previousResults m) = some r → r.field = m := by
    intro m r hr
    split at hr <;>
    · have := List.find?_some hr
      simpa [beq_iff_eq] using this
  rw [find?_filterMap_pick _ hp n]
  by_cases hall : n ∈ dedupFirst
      (previousResults.map (fun r => r.field) ++ newResults.map (fun r => r.field))
  · simp [hall]
  · rw [if_neg hall]
    rw [mem_dedupFirst, List.mem_append] at hall
    push_neg at hall
    rw [findField_eq_none_of_not_mem _ _ hall.1,
      findField_eq_none_of_not_mem _ _ hall.2]
    simp

/-- **C2.** For every previous list `P`, fresh list `F` and field name `n`:
if `n` is a changed field, the merged list's entry for `n` is exactly `F`'s
entry for `n` (so if `F` has no entry for `n`, the name is silently absent
from the merge); if `n` is not a changed field, the merged list's entry for
`n` is `P`'s entry for `n`. -/
theorem c2_merge_changed_fresh_unchanged_previous
    (P F : List FieldValidationResult) (changedFields : List String) (n : String) :
    (n ∈ changedFields →
      findField (mergeValidationResults P F changedFields) n = findField F n) ∧
    (n ∉ changedFields →
      findField (mergeValidationResults P F changedFields) n = findField P n) ∧
    (n ∈ changedFields → findField F n = none →
      ∀ r ∈ mergeValidationResults P F changedFields, ¬ r.field = n) := by
  refine ⟨fun h => ?_, fun h => ?_, fun h hF r hr => ?_⟩
  · rw [findField_merge, if_pos h]
  · rw [findField_merge, if_neg h]
  · have habs : findField (mergeValidationResults P F changedFields) n = none := by
      rw [findField_merge, if_pos h, hF]
    rw [findField, List.find?_eq_none] at habs
    intro hrn
    exact habs r hr (by simp [hrn])

/-- Witness for C2 at concrete inputs: `description` is a changed field
(fresh entry wins), `summary` is not (previous entry wins). -/
theorem c2_merge_changed_fresh_unchanged_previous_witness :
    (findField (mergeValidationResults
        [{ field := "summary", isValid := true, score := 8, issues := [],
           suggestions := [], lastValidated := "t0" },
         { field := "description", isValid := true, score := 6, issues := [],
           suggestions := [], lastValidated := "t0" }]
        [{ field := "description", isValid := false, score := 3, issues := ["too short"],
           suggestions := ["expand"], lastValidated := "t1" }]
        ["description"]) "description" =
      findField
        [{ field := "description", isValid := false, score := 3, issues := ["too short"],
           suggestions := ["expand"], lastValidated := "t1" }] "description") ∧
    (findField (mergeValidationResults
        [{ field := "summary", isValid := true, score := 8, issues := [],
           suggestions := [], lastValidated := "t0" },
         { field := "description", isValid := true, score := 6, issues := [],
           suggestions := [], lastValidated := "t0" }]
        [{ field := "description", isValid := false, score := 3, issues := ["too short"],
           suggestions := ["expand"], lastValidated := "t1" }]
        ["description"]) "summary" =
      findField
        [{ field := "summary", isValid := true, score := 8, issues := [],
           suggestions := [], lastValidated := "t0" },
         { field := "description", isValid := true, score := 6, issues := [],
           suggestions := [], lastValidated := "t0" }] "summary") :=
  ⟨(c2_merge_changed_fresh_unchanged_previous _ _ _ _).1 (by decide),
   (c2_merge_changed_fresh_unchanged_previous _ _ _ _).2.1 (by decide)⟩

theorem filter_bne_eq_self {A : List String} {x : String} (hx : x ∉ A) :
    A.filter (fun y => y != x) = A := by
  rw [List.filter_eq_self]
  intro a ha
  simp only [bne_iff_ne, ne_eq]
  intro hax
  exact hx (hax ▸ ha)

theorem dedupFirst_append :
    ∀ (A : List String), A.Nodup → ∀ (B : List String),
      dedupFirst (A ++ B) = A ++ dedupFirst (B.filter (fun b => decide (b ∉ A)))
  | [], _, B => by
    simp only [List.nil_append]
    have hfilter : B.filter (fun b => decide (b ∉ ([] : List String))) = B := by
      rw [List.filter_eq_self]
      intro a _
      simp
    rw [hfilter]
  | a :: A, hA, B => by
    obtain ⟨hhead, htail⟩ := List.nodup_cons.mp hA
    rw [List.cons_append, dedupFirst, List.filter_append,
      filter_bne_eq_self hhead,
      dedupFirst_append A htail (B.filter (fun y => y != a)), List.cons_append]
    congr 2
    rw [List.filter_filter]
    refine congrArg dedupFirst ?_
    apply List.filter_congr
    intro x _
    rw [Bool.eq_iff_iff]
    simp only [Bool.and_eq_true, decide_eq_true_eq, bne_iff_ne, ne_eq,
      List.mem_cons, not_or]
    tauto

theorem filterMap_findField_self (P : List FieldValidationResult)
    (hP : (P.map (fun r => r.field)).Nodup) :
    (P.map (fun r => r.field)).filterMap (fun m => findField P m) = P := by
  induction P with
  | nil => rfl
  | cons p ps ih =>
    rw [List.map_cons] at hP ⊢
    obtain ⟨hhead, htail⟩ := List.nodup_cons.mp hP
    rw [List.filterMap_cons]
    have hself : findField (p :: ps) p.field = some p := by
      rw [findField, List.find?_cons]
      simp
    rw [hself]
    have hcongr : ∀ m ∈ ps.map (fun r => r.field),
        findField (p :: ps) m = findField ps m := by
      intro m hm
      have hne : (p.field == m) = false := by
        rw [beq_eq_false_iff_ne]
        intro h
        exact hhead (h ▸ hm)
      rw [findField, List.find?_cons, hne, findField]
    rw [List.filterMap_congr hcongr, ih htail]

/-- **C3 (counterexample).** The claim `merge(P, F, ∅) = P` for *every*
pair of lists fails: when `P` holds two entries with the same field name,
the set-based iteration deduplicates and the merge keeps only the first
entry. -/
theorem c3_counterexample_duplicate_field :
    mergeValidationResults
      [{ field := "summary", isValid := true, score := 5, issues := [],
         suggestions := [], lastValidated := "t0" },
       { field := "summary", isValid := true, score := 6, issues := [],
         suggestions := [], lastValidated := "t0" }]
      [] [] ≠
      [{ field := "summary", isValid := true, score := 5, issues := [],
         suggestions := [], lastValidated := "t0" },
       { field := "summary", isValid := true, score := 6, issues := [],
         suggestions := [], lastValidated := "t0" }] := by
  simp [mergeValidationResults, dedupFirst, findField, List.find?]

/-- **C3 (amended).** Merging with an empty changed-field set returns
exactly the previous list (same entries, same order), provided the
previous list's field names are pairwise distinct — which holds for every
list the system itself stores, but not for arbitrary duplicate-carrying
inputs (see the counterexample). -/
theorem c3_merge_empty_changed_eq_previous
    (P F : List FieldValidationResult)
    (hP : (P.map (fun r => r.field)).Nodup) :
    mergeValidationResults P F [] = P := by
  rw [mergeValidationResults]
  have hpick : ∀ m ∈ dedupFirst
      (P.map (fun r => r.field) ++ F.map (fun r => r.field)),
      (if m ∈ ([] : List String) then findField F m else findField P m) =
        findField P m := by
    intro m _
    simp
  rw [List.filterMap_congr hpick, dedupFirst_append _ hP _,
    List.filterMap_append, filterMap_findField_self P hP]
  have hnil : (dedupFirst ((F.map (fun r => r.field)).filter
      (fun b => decide (b ∉ P.map (fun r => r.field))))).filterMap
      (fun m => findField P m) = [] := by
    rw [List.filterMap_eq_nil_iff]
    intro m hm
    rw [mem_dedupFirst, List.mem_filter] at hm
    exact findField_eq_none_of_not_mem P m (by simpa using hm.2)
  rw [hnil, List.append_nil]

/-- Witness for the amended C3 at a concrete input with distinct field
names in the previous list. -/
theorem c3_merge_empty_changed_eq_previous_witness :
    mergeValidationResults
      [{ field := "summary", isValid := true, score := 8, issues := [],
         suggestions := [], lastValidated := "t0" },
       { field := "description", isValid := false, score := 4, issues := ["short"],
         suggestions := [], lastValidated := "t0" }]
      [{ field := "status", isValid := true, score := 9, issues := [],
         suggestions := [], lastValidated := "t1" }]
      [] =
      [{ field := "summary", isValid := true, score := 8, issues := [],
         suggestions := [], lastValidated := "t0" },
       { field := "description", isValid := false, score := 4, issues := ["short"],
         suggestions := [], lastValidated := "t0" }] :=
  c3_merge_empty_changed_eq_previous _ _ (by decide)

theorem foldl_add_score (l : List FieldValidationResult) :
    ∀ (init : Int),
      l.foldl (fun sum field => sum + field.score) init =
        init + (l.map (fun field => field.score)).sum := by
  induction l with
  | nil => intro init; simp
  | cons p ps ih =>
    intro init
    simp [List.foldl_cons, ih, add_assoc]

theorem sumScores_eq_sum (l : List FieldValidationResult) :
    sumScores l = (l.map (fun field => field.score)).sum := by
  rw [sumScores, foldl_add_score l 0, zero_add]

/-- `Math.round(s/n) = ⌊s/n + 1/2⌋` agrees with the integer encoding
`(2s+n) fdiv 2n` and with Mathlib's round-half-up `round`. -/
theorem round_half_up_fdiv (s : Int) (n : Nat) (h : 0 < n) :
    (2 * s + (n : Int)).fdiv (2 * (n : Int)) = round ((s : ℚ) / (n : ℚ)) := by
  rw [round_eq]
  rw [Int.fdiv_eq_ediv _ (by positivity)]
  have key : (s : ℚ) / (n : ℚ) + 1/2 = ((2 * s + (n : Int) : ℤ) : ℚ) / ((2 * n : ℕ) : ℚ) := by
    have hn : (n : ℚ) ≠ 0 := by positivity
    push_cast
    field_simp
    ring
  rw [key, Rat.floor_intCast_div_natCast]
  norm_cast

/-- **C6.** For every non-empty field-result list, the aggregate score
computed by `updateTicketHistory` and `validateSpecificFields`
(`Math.round(sum / length)`, one shared rounding policy) equals the
arithmetic mean of the per-field scores rounded half-up (Mathlib's
`round`), and the aggregate validity flag is true iff every field result
is valid and the aggregate score is at least 7. -/
theorem c6_aggregate_round_half_up_validity (l : List FieldValidationResult)
    (h : l ≠ []) :
    overallScoreOf l =
      some (round ((l.map (fun field => (field.score : ℚ))).sum / (l.length : ℚ))) ∧
    (isValidOf l = true ↔
      ((∀ field ∈ l, field.isValid = true) ∧
        ∃ s, overallScoreOf l = some s ∧ 7 ≤ s)) := by
  have hlen : 0 < l.length := List.length_pos.mpr h
  have hne : ¬ l.length = 0 := Nat.pos_iff_ne_zero.mp hlen
  have hscore : overallScoreOf l =
      some ((2 * sumScores l + (l.length : Int)).fdiv (2 * (l.length : Int))) := by
    rw [overallScoreOf, if_neg hne]
  constructor
  · rw [hscore, round_half_up_fdiv _ _ hlen, sumScores_eq_sum]
    have hcast : (((l.map (fun field => field.score)).sum : Int) : ℚ) =
        (l.map (fun field => (field.score : ℚ))).sum := by
      rw [Int.cast_list_sum, List.map_map]
      rfl
    rw [hcast]
  · rw [isValidOf, hscore]
    simp only [scoreAtLeast7, Bool.and_eq_true, List.all_eq_true,
      decide_eq_true_eq, Option.some.injEq]
    constructor
    · rintro ⟨hall, h7⟩
      exact ⟨hall, _, rfl, h7⟩
    · rintro ⟨hall, s, hs, h7⟩
      exact ⟨hall, hs ▸ h7⟩

/-- Witness for C6 at a concrete list: two valid fields scoring 8 and 7. -/
theorem c6_aggregate_round_half_up_validity_witness :
    overallScoreOf
        [{ field := "summary", isValid := true, score := 8, issues := [],
           suggestions := [], lastValidated := "t0" },
         { field := "description", isValid := true, score := 7, issues := [],
           suggestions := [], lastValidated := "t0" }] =
      some (round
        (([{ field := "summary", isValid := true, score := 8, issues := [],
             suggestions := [], lastValidated := "t0" },
           { field := "description", isValid := true, score := 7, issues := [],
             suggestions := [], lastValidated := "t0" }].map
            (fun field : FieldValidationResult => (field.score : ℚ))).sum /
          (([{ field := "summary", isValid := true, score := 8, issues := [],
               suggestions := [], lastValidated := "t0" },
             { field := "description", isValid := true, score := 7, issues := [],
               suggestions := [], lastValidated := "t0" }] :
              List FieldValidationResult).length : ℚ))) ∧
    (isValidOf
        [{ field := "summary", isValid := true, score := 8, issues := [],
           suggestions := [], lastValidated := "t0" },
         { field := "description", isValid := true, score := 7, issues := [],
           suggestions := [], lastValidated := "t0" }] = true ↔
      ((∀ field ∈
          ([{ field := "summary", isValid := true, score := 8, issues := [],
              suggestions := [], lastValidated := "t0" },
            { field := "description", isValid := true, score := 7, issues := [],
              suggestions := [], lastValidated := "t0" }] :
            List FieldValidationResult), field.isValid = true) ∧
        ∃ s, overallScoreOf
            [{ field := "summary", isValid := true, score := 8, issues := [],
               suggestions := [], lastValidated := "t0" },
             { field := "description", isValid := true, score := 7, issues := [],
               suggestions := [], lastValidated := "t0" }] = some s ∧ 7 ≤ s)) :=
  c6_aggregate_round_half_up_validity _ (by decide)

/-- **C7.** The empty field-result list is *not* rejected: the code
silently computes `Math.round(0 / 0) = NaN` (modelled `none`) as the
aggregate score — both in the API route's `validateSpecificFields` and in
the history entry built by `updateTicketHistory` — and `isValid` becomes
`false` only because `NaN >= 7` is false; no error is raised, no input
validation happens.  This contradicts the claim (and §4.4/§7 of the spec),
which demand an explicit rejection before any collaborator call. -/
theorem c7_empty_results_silently_nan (oracle : String → GenOutcome)
    (now ticketKey : String) (snapshot : TicketSnapshot) :
    validateSpecificFields oracle now [] =
      some { isValid := false, score := none, issues := [], suggestions := [],
             fieldResults := [], validationType := "field-specific" } ∧
    (mkEntry ticketKey snapshot [] now).overallScore = none ∧
    (mkEntry ticketKey snapshot [] now).isValid = false :=
  ⟨rfl, rfl, rfl⟩

/-- **C8 (counterexample).** The claim's "call fails" half is false of
the code: the `await generateText` sits outside the per-field `try`
(which wraps only `JSON.parse`), so a failed field-validator call
rejects the whole `Promise.all` and the request aborts with a 500 — no
sentinel result is produced for the failing field and the other fields'
results are discarded, the opposite of "instead of aborting the whole
ticket's validation".  Concretely, with an oracle whose call fails
exactly on `priority`, the failing field yields no result and the whole
validation yields nothing. -/
theorem c8_counterexample_call_failure_aborts :
    fieldResultOf
        (fun g => if g = "priority" then GenOutcome.failed
          else GenOutcome.parsed
            { isValid := true, score := 8, issues := none, suggestions := none })
        "t1" "priority" = none ∧
    validateSpecificFields
        (fun g => if g = "priority" then GenOutcome.failed
          else GenOutcome.parsed
            { isValid := true, score := 8, issues := none, suggestions := none })
        "t1" ["summary", "priority"] = none := by
  exact ⟨by decide, by decide⟩

theorem validatedFieldResults_all_ok (oracle : String → GenOutcome)
    (now : String) :
    ∀ (fields : List String), (∀ g ∈ fields, oracle g ≠ GenOutcome.failed) →
      ∃ results, validatedFieldResults oracle now fields = some results ∧
        results.length = fields.length
  | [], _ => ⟨[], rfl, rfl⟩
  | fieldName :: rest, hok => by
    have hr : ∃ r, fieldResultOf oracle now fieldName = some r := by
      rw [fieldResultOf]
      cases hg : oracle fieldName with
      | failed => exact absurd hg (hok fieldName (by simp))
      | unparsable => exact ⟨_, rfl⟩
      | parsed a => exact ⟨_, rfl⟩
    obtain ⟨r, hr⟩ := hr
    obtain ⟨rs, hrs, hlen⟩ := validatedFieldResults_all_ok oracle now rest
      (fun g hg => hok g (by simp [hg]))
    refine ⟨r :: rs, ?_, by simp [hlen]⟩
    rw [validatedFieldResults, hr, hrs]

/-- **C8 (amended).** If the collaborator call for field `f` *succeeds
but returns output that cannot be interpreted*, that field's result
degrades to the sentinel (score 0, diagnostic issue, retry suggestion);
provided no requested field's call fails outright, the ticket's
validation is not aborted and produces one result per requested field;
and every other field's result is unaffected (identical under any second
oracle that agrees outside `f`).  A *failed* call instead aborts the
whole request, because the per-field `try` wraps only `JSON.parse` (see
the counterexample). -/
theorem c8_unparsable_degrades_to_sentinel
    (oracle oracle' : String → GenOutcome) (now : String)
    (fieldsToValidate : List String) (f : String)
    (hf : oracle f = GenOutcome.unparsable)
    (hok : ∀ g ∈ fieldsToValidate, oracle g ≠ GenOutcome.failed)
    (hagree : ∀ g, g ≠ f → oracle g = oracle' g) :
    fieldResultOf oracle now f = some (sentinelResult f now) ∧
    (∃ results,
      validatedFieldResults oracle now fieldsToValidate = some results ∧
      results.length = fieldsToValidate.length) ∧
    (∀ g ∈ fieldsToValidate, g ≠ f →
      fieldResultOf oracle now g = fieldResultOf oracle' now g) := by
  refine ⟨?_, ?_, ?_⟩
  · rw [fieldResultOf, hf]
  · exact validatedFieldResults_all_ok oracle now fieldsToValidate hok
  · intro g _ hg
    rw [fieldResultOf, fieldResultOf, hagree g hg]

/-- Witness for the amended C8: the oracle returns unparsable output
exactly for `priority` and parses everywhere else; the second oracle
parses everywhere. -/
theorem c8_unparsable_degrades_to_sentinel_witness :
    fieldResultOf
        (fun g => if g = "priority" then GenOutcome.unparsable
          else GenOutcome.parsed
            { isValid := true, score := 8, issues := none, suggestions := none })
        "t1" "priority" = some (sentinelResult "priority" "t1") ∧
    (∃ results,
      validatedFieldResults
          (fun g => if g = "priority" then GenOutcome.unparsable
            else GenOutcome.parsed
              { isValid := true, score := 8, issues := none, suggestions := none })
          "t1" ["summary", "priority"] = some results ∧
      results.length = (["summary", "priority"] : List String).length) ∧
    (∀ g ∈ (["summary", "priority"] : List String), g ≠ "priority" →
      fieldResultOf
          (fun g' => if g' = "priority" then GenOutcome.unparsable
            else GenOutcome.parsed
              { isValid := true, score := 8, issues := none, suggestions := none })
          "t1" g =
        fieldResultOf
          (fun _ => GenOutcome.parsed
            { isValid := true, score := 8, issues := none, suggestions := none })
          "t1" g) :=
  c8_unparsable_degrades_to_sentinel _ _ "t1" ["summary", "priority"] "priority"
    (by simp) (by decide) (fun g hg => by simp [hg])

theorem updateTicketHistory_eq_upsert (k : String) (snap : TicketSnapshot)
    (results : List FieldValidationResult) (now : String) :
    ∀ (history : List ValidationHistoryEntry),
      updateTicketHistory history k snap results now =
        upsertEntry (mkEntry k snap results now)
          (fun entry => entry.ticketKey == k) history
  | [] => rfl
  | e :: rest => by
    have ih := updateTicketHistory_eq_upsert k snap results now rest
    cases hpe : (e.ticketKey == k) with
    | true =>
      simp [updateTicketHistory, upsertEntry, List.findIdx?_cons, hpe]
    | false =>
      cases hidx : List.findIdx? (fun entry => entry.ticketKey == k) rest with
      | none =>
        simp only [updateTicketHistory, List.findIdx?_cons, hpe,
          Bool.false_eq_true, if_false, List.findIdx?_succ, hidx,
          Option.map_none', upsertEntry] at ih ⊢
        rw [List.cons_append, ih]
      | some i =>
        simp only [updateTicketHistory, List.findIdx?_cons, hpe,
          Bool.false_eq_true, if_false, List.findIdx?_succ, hidx,
          Option.map_some', List.set_cons_succ, upsertEntry] at ih ⊢
        rw [ih]

theorem upsert_filter_self (newEntry : ValidationHistoryEntry)
    (p : ValidationHistoryEntry → Bool) (hnew : p newEntry = true) :
    ∀ (l : List ValidationHistoryEntry), (l.filter p).length ≤ 1 →
      (upsertEntry newEntry p l).filter p = [newEntry]
  | [], _ => by simp [upsertEntry, List.filter_cons, hnew]
  | e :: rest, hlen => by
    cases hpe : p e with
    | true =>
      have hrest : rest.filter p = [] := by
        rw [List.filter_cons, hpe, if_pos rfl, List.length_cons] at hlen
        exact List.length_eq_zero.mp (by omega)
      simp [upsertEntry, hpe, List.filter_cons, hnew, hrest]
    | false =>
      have hlen' : (rest.filter p).length ≤ 1 := by
        rw [List.filter_cons, hpe] at hlen
        simpa using hlen
      have ih := upsert_filter_self newEntry p hnew rest hlen'
      simp [upsertEntry, hpe, List.filter_cons, ih]

theorem upsert_filter_others (newEntry : ValidationHistoryEntry)
    (p : ValidationHistoryEntry → Bool) (hnew : p newEntry = true) :
    ∀ (l : List ValidationHistoryEntry),
      (upsertEntry newEntry p l).filter (fun e => !(p e)) =
        l.filter (fun e => !(p e))
  | [] => by simp [upsertEntry, List.filter_cons, hnew]
  | e :: rest => by
    have ih := upsert_filter_others newEntry p hnew rest
    cases hpe : p e with
    | true => simp [upsertEntry, hpe, List.filter_cons, hnew]
    | false => simp [upsertEntry, hpe, List.filter_cons, ih]

/-- **C9.** `updateTicketHistory` is an in-place upsert keyed by ticket
key: starting from a history with at most one entry for key `k` (the
claim assumes at most one entry per key; only the bound for `k` is
needed), the updated history contains exactly one entry for `k` — the
freshly built entry, fully replacing any prior one — every entry for any
other key is untouched, and the only operation that removes entries is
`clearHistory`, which empties the store. -/
theorem c9_update_replaces_single_entry (history : List ValidationHistoryEntry)
    (k : String) (snapshot : TicketSnapshot)
    (fieldResults : List FieldValidationResult) (now : String)
    (hk : (history.filter (fun e => e.ticketKey == k)).length ≤ 1) :
    (updateTicketHistory history k snapshot fieldResults now).filter
        (fun e => e.ticketKey == k) = [mkEntry k snapshot fieldResults now] ∧
    (updateTicketHistory history k snapshot fieldResults now).filter
        (fun e => !(e.ticketKey == k)) =
      history.filter (fun e => !(e.ticketKey == k)) ∧
    clearHistory = [] := by
  have hnew : ((mkEntry k snapshot fieldResults now).ticketKey == k) = true := by
    simp [mkEntry]
  rw [updateTicketHistory_eq_upsert]
  exact ⟨upsert_filter_self _ _ hnew history hk,
    upsert_filter_others _ _ hnew history, rfl⟩

/-- Witness for C9: update key `T-1` in a two-entry history. -/
theorem c9_update_replaces_single_entry_witness :
    (updateTicketHistory [c9StoredEntry, c9OtherEntry] "T-1" c9NewSnapshot
        c9NewResults "t1").filter (fun e => e.ticketKey == "T-1") =
      [mkEntry "T-1" c9NewSnapshot c9NewResults "t1"] ∧
    (updateTicketHistory [c9StoredEntry, c9OtherEntry] "T-1" c9NewSnapshot
        c9NewResults "t1").filter (fun e => !(e.ticketKey == "T-1")) =
      [c9StoredEntry, c9OtherEntry].filter (fun e => !(e.ticketKey == "T-1")) ∧
    clearHistory = [] :=
  c9_update_replaces_single_entry [c9StoredEntry, c9OtherEntry] "T-1"
    c9NewSnapshot c9NewResults "t1" (by decide)

/-- **C1.** If a cached history entry exists for the ticket and the
current snapshot yields an empty changed-field set, the orchestrator
succeeds and returns the cached entry's field results tagged `cached`,
performs zero field-validator invocations, and leaves the history (the
cache) exactly as it was (the returned state is the input `history`
itself); consequently a second revalidation on that resulting state —
under any oracles and any timestamp — returns the identical tuple
(identical aggregate score and field results, classification `cached`,
zero additional invocations). -/
theorem c1_cached_no_change_idempotent
    (oracle oracle' : String → GenOutcome)
    (fullOracle fullOracle' : FullOutcome) (now now' : String)
    (history : List ValidationHistoryEntry) (ticket : TicketSnapshot)
    (prev : ValidationHistoryEntry)
    (hprev : getTicketHistory history ticket.key = some prev)
    (hnochange : detectChangedFields (createTicketSnapshot ticket) prev.snapshot = []) :
    ∃ result,
      validateOneTicket oracle fullOracle now history ticket =
        some (result, history, 0) ∧
      result.validationType = "cached" ∧
      result.fieldResults = prev.fieldResults ∧
      validateOneTicket oracle' fullOracle' now' history ticket =
        some (result, history, 0) := by
  have hstep : ∀ (o : String → GenOutcome) (fo : FullOutcome) (n : String),
      validateOneTicket o fo n history ticket =
        some ({ score := floorScoreOf prev.fieldResults
                issues := prev.fieldResults.flatMap (fun f => f.issues)
                suggestions := prev.fieldResults.flatMap (fun f => f.suggestions)
                fieldResults := prev.fieldResults
                validationType := "cached"
                changedFields := []
                cachedFields := prev.fieldResults.map (fun f => f.field) },
              history, 0) := by
    intro o fo n
    simp [validateOneTicket, hprev, hnochange]
  exact ⟨_, hstep oracle fullOracle now, rfl, rfl,
    hstep oracle' fullOracle' now'⟩

/-- Witness for C1: a one-entry history whose stored snapshot equals the
ticket being revalidated; the oracles always fail, which cannot matter
because the cached branch never consults them. -/
theorem c1_cached_no_change_idempotent_witness :
    ∃ result,
      validateOneTicket (fun _ => GenOutcome.failed) FullOutcome.failed "t1"
          [c1Entry] c1Snapshot = some (result, [c1Entry], 0) ∧
      result.validationType = "cached" ∧
      result.fieldResults = c1Entry.fieldResults ∧
      validateOneTicket (fun _ => GenOutcome.failed) FullOutcome.failed "t2"
          [c1Entry] c1Snapshot = some (result, [c1Entry], 0) :=
  c1_cached_no_change_idempotent (fun _ => GenOutcome.failed)
    (fun _ => GenOutcome.failed) FullOutcome.failed FullOutcome.failed
    "t1" "t2" [c1Entry] c1Snapshot c1Entry (by decide) (by decide)

end JiraValidation
